import Mathlib

/-!
Verification of the sign-language recognition core: the landmark classifier
(`_apply_gesture_rules` in `webapp/sign_language_recognizer.py` and the
classification part of `predict` in `final_complete_auth.py`), the text
accumulation state machine (`update_text_with_character` / the accumulation
part of `predict`), and the suggestion adapter (`update_word_suggestions`,
`apply_word_suggestion`, `action1`).

Landmarks are integer pixel coordinates.  The source compares Euclidean
distances (`math.sqrt` of integer sums of squares) with integer thresholds;
here every such comparison is expressed equivalently over squared distances,
so all definitions are executable over `Int`.
-/

/-! ## Landmark geometry -/

/-- A landmark point: integer pixel coordinates `(x, y)` on the 400x400 canvas. -/
abbrev Pt := Int × Int

/-- x-coordinate of landmark `i` (Python `pts[i][0]`). -/
def ptX (P : List Pt) (i : Nat) : Int := (P.getD i (0, 0)).1

/-- y-coordinate of landmark `i` (Python `pts[i][1]`). -/
def ptY (P : List Pt) (i : Nat) : Int := (P.getD i (0, 0)).2

/-- Squared Euclidean distance between landmarks `i` and `j`. -/
def dist2 (P : List Pt) (i j : Nat) : Int :=
  (ptX P i - ptX P j) ^ 2 + (ptY P i - ptY P j) ^ 2

/-- Models Python `self.distance(pts[i], pts[j]) > t` for a threshold `t ≥ 0`:
`sqrt d2 > t ↔ d2 > t^2` since both sides are nonnegative. -/
def distGT (P : List Pt) (i j : Nat) (t : Int) : Prop := t ^ 2 < dist2 P i j

/-- Models Python `self.distance(pts[i], pts[j]) < t` for a threshold `t ≥ 0`. -/
def distLT (P : List Pt) (i j : Nat) (t : Int) : Prop := dist2 P i j < t ^ 2

/-- Models Python `distance(pts[i],pts[j]) - distance(pts[k],pts[l]) < t` for
`t ≥ 0`.  With `a = dist2 i j`, `b = dist2 k l`: `sqrt a - sqrt b < t` iff
`a - b - t^2 < 2 t sqrt b`, i.e. iff `a - b - t^2 < 0` or
`(a - b - t^2)^2 < 4 t^2 b`. -/
def distDiffLT (P : List Pt) (i j k l : Nat) (t : Int) : Prop :=
  dist2 P i j - dist2 P k l - t ^ 2 < 0 ∨
    (dist2 P i j - dist2 P k l - t ^ 2) ^ 2 < 4 * t ^ 2 * dist2 P k l

instance (P : List Pt) (i j : Nat) (t : Int) : Decidable (distGT P i j t) := by
  unfold distGT; infer_instance

instance (P : List Pt) (i j : Nat) (t : Int) : Decidable (distLT P i j t) := by
  unfold distLT; infer_instance

instance (P : List Pt) (i j k l : Nat) (t : Int) : Decidable (distDiffLT P i j k l t) := by
  unfold distDiffLT; infer_instance

/-! ## Webapp landmark classifier

`SignLanguageRecognizer._apply_gesture_rules` (webapp/sign_language_recognizer.py,
lines 180-281).  It maps the coarse class `ch1` directly to a letter via
per-bucket geometric tests, then applies the "next" and space overrides.
`ch2` is received but never used by this variant (only `pl = [ch1, ch2]` is
built and dropped), mirroring the source. -/

/-- Bucket-to-letter resolution, webapp variant (lines 192-265): the value of
`predicted_char` just before the "next"/space post-processing. -/
def resolve_letter (ch1 : Int) (_ch2 : Int) (P : List Pt) : String :=
  if ch1 = 0 then
    if ptX P 4 < ptX P 6 ∧ ptX P 4 < ptX P 10 ∧ ptX P 4 < ptX P 14 ∧ ptX P 4 < ptX P 18 then "A"
    else if ptY P 4 > ptY P 8 ∧ ptY P 4 > ptY P 12 ∧ ptY P 4 > ptY P 16 ∧ ptY P 4 > ptY P 20 then "E"
    else if ptX P 4 > ptX P 6 ∧ ptX P 4 > ptX P 10 ∧ ptX P 4 > ptX P 14 ∧ ptY P 4 < ptY P 18 then "M"
    else if ptX P 4 > ptX P 6 ∧ ptX P 4 > ptX P 10 ∧ ptY P 4 < ptY P 18 ∧ ptY P 4 < ptY P 14 then "N"
    else "S"
  else if ch1 = 2 then
    if distGT P 12 4 42 then "C" else "O"
  else if ch1 = 3 then
    if distGT P 8 12 72 then "G" else "H"
  else if ch1 = 4 then "L"
  else if ch1 = 5 then
    if ptX P 4 > ptX P 12 ∧ ptX P 4 > ptX P 16 ∧ ptX P 4 > ptX P 20 then
      if ptY P 8 < ptY P 5 then "Z" else "Q"
    else "P"
  else if ch1 = 6 then "X"
  else if ch1 = 7 then
    if distGT P 8 4 42 then "Y" else "J"
  else if ch1 = 1 then
    if (ptY P 6 > ptY P 8) ∧ (ptY P 10 > ptY P 12) ∧ (ptY P 14 > ptY P 16) ∧ (ptY P 18 > ptY P 20) then "B"
    else if (ptY P 6 > ptY P 8) ∧ ¬(ptY P 10 > ptY P 12) ∧ ¬(ptY P 14 > ptY P 16) ∧ ¬(ptY P 18 > ptY P 20) then "D"
    else if ¬(ptY P 6 > ptY P 8) ∧ (ptY P 10 > ptY P 12) ∧ (ptY P 14 > ptY P 16) ∧ (ptY P 18 > ptY P 20) then "F"
    else if ¬(ptY P 6 > ptY P 8) ∧ ¬(ptY P 10 > ptY P 12) ∧ ¬(ptY P 14 > ptY P 16) ∧ (ptY P 18 > ptY P 20) then "I"
    else if (ptY P 6 > ptY P 8) ∧ (ptY P 10 > ptY P 12) ∧ (ptY P 14 > ptY P 16) ∧ ¬(ptY P 18 > ptY P 20) then "W"
    else if (ptY P 6 > ptY P 8) ∧ (ptY P 10 > ptY P 12) ∧ ¬(ptY P 14 > ptY P 16) ∧ ¬(ptY P 18 > ptY P 20) then
      if distDiffLT P 8 12 6 10 8 then "U" else "V"
    else if (ptY P 6 > ptY P 8) ∧ (ptY P 10 > ptY P 12) ∧ ¬(ptY P 14 > ptY P 16) ∧ ¬(ptY P 18 > ptY P 20) ∧ ptX P 8 > ptX P 12 then "R"
    else "K"
  else toString ch1

/-- Webapp classifier (lines 180-281): bucket resolution followed by the
"next" override (268-273) and the space override (276-279). -/
def apply_gesture_rules (ch1 ch2 : Int) (P : List Pt) : String :=
  let r := resolve_letter ch1 ch2 P
  let r :=
    if (r = "E" ∨ r = "Y" ∨ r = "B") ∧ ptX P 4 < ptX P 5 ∧
        ptY P 6 > ptY P 8 ∧ ptY P 10 > ptY P 12 ∧ ptY P 14 > ptY P 16 ∧ ptY P 18 > ptY P 20 then
      "next"
    else r
  if (r = "S" ∨ r = "T") ∧ P.length > 20 ∧ ptY P 6 > ptY P 8 ∧ ptY P 10 < ptY P 12 then " "
  else r

/-! ## Accumulation state machine (webapp variant)

State fields of `SignLanguageRecognizer` touched by
`update_text_with_character` (lines 283-319) and the suggestion adapter
(lines 321-375).  The output text is modelled as a list of characters;
tokens in the ring buffer are strings, exactly as in the source. -/

/-- Mutable recognition state (the fields of `SignLanguageRecognizer` the
accumulation logic reads or writes). -/
structure RecognizerState where
  recognized_text : List Char
  current_word : List Char
  current_symbol : String
  prev_char : String
  count : Int
  ten_prev_char : List String
  word_suggestions : List String
deriving DecidableEq

/-- Initial state set by `reset_recognition_state` (lines 79-102):
`count = -1`, ten blanks in the ring buffer, empty text. -/
def reset_recognition_state : RecognizerState :=
  { recognized_text := []
    current_word := []
    current_symbol := "C"
    prev_char := ""
    count := -1
    ten_prev_char := List.replicate 10 " "
    word_suggestions := [" ", " ", " ", " "] }

/-- Core of `update_text_with_character` (lines 291-316): the text branches,
then the unconditional bookkeeping (`prev_char`, `current_symbol`, `count`,
ring-buffer write).  Python `%` on a negative dividend and positive divisor
agrees with `Int.emod`. -/
def update_text_with_character (s : RecognizerState) (c : String) : RecognizerState :=
  let text :=
    if c = "next" ∧ s.prev_char ≠ "next" then
      if s.ten_prev_char.getD ((s.count - 2) % 10).toNat " " ≠ "next" then
        if s.ten_prev_char.getD ((s.count - 2) % 10).toNat " " = "Backspace" then
          if s.recognized_text.length > 0 then s.recognized_text.dropLast
          else s.recognized_text
        else
          if s.ten_prev_char.getD ((s.count - 2) % 10).toNat " " ∉ (["Backspace", " ", "next"] : List String) then
            s.recognized_text ++ (s.ten_prev_char.getD ((s.count - 2) % 10).toNat " ").data
          else s.recognized_text
      else
        if s.ten_prev_char.getD (s.count % 10).toNat " " ∉ (["Backspace", " ", "next"] : List String) then
          s.recognized_text ++ (s.ten_prev_char.getD (s.count % 10).toNat " ").data
        else s.recognized_text
    else if c = " " ∧ s.prev_char ≠ " " then s.recognized_text ++ [' ']
    else if c = "Backspace" ∧ s.prev_char ≠ "Backspace" then
      if s.recognized_text.length > 0 then s.recognized_text.dropLast
      else s.recognized_text
    else s.recognized_text
  { s with
    recognized_text := text
    prev_char := c
    current_symbol := c
    count := s.count + 1
    ten_prev_char := s.ten_prev_char.set ((s.count + 1) % 10).toNat c }

/-- Python `str.strip()` on both ends (whitespace removal). -/
def pyStrip (l : List Char) : List Char :=
  ((l.dropWhile Char.isWhitespace).reverse.dropWhile Char.isWhitespace).reverse

/-- Python `text.rfind(" ")`: the greatest index of a space, or `-1`. -/
def rfindSpace (l : List Char) : Int :=
  match l.reverse.findIdx? (fun ch => ch = ' ') with
  | some j => (l.length : Int) - 1 - j
  | none => -1

/-- The active word: `recognized_text[last_space + 1:]` (lines 330-331). -/
def activeWordOf (t : List Char) : List Char := t.drop (rfindSpace t + 1).toNat

/-- The external dictionary: `none` models `self.dictionary is None`; a
present dictionary maps a word to `none` (the lookup raises) or to its
suggestion list. -/
abbrev Dict := Option (List Char → Option (List String))

/-- `update_word_suggestions` (lines 321-351): no dictionary, a blank
sentence, a blank active word, or a raising lookup all degrade to four blank
placeholders; `current_word` is assigned before the lookup can raise, exactly
as in the source. -/
def update_word_suggestions (d : Dict) (s : RecognizerState) : RecognizerState :=
  match d with
  | none => { s with word_suggestions := [" ", " ", " ", " "] }
  | some f =>
    if (pyStrip s.recognized_text).length ≠ 0 then
      let w := activeWordOf s.recognized_text
      if (pyStrip w).length ≠ 0 then
        match f w with
        | some suggs =>
          { s with current_word := w
                   word_suggestions :=
                     [suggs.getD 0 " ", suggs.getD 1 " ", suggs.getD 2 " ", suggs.getD 3 " "] }
        | none => { s with current_word := w, word_suggestions := [" ", " ", " ", " "] }
      else { s with current_word := w, word_suggestions := [" ", " ", " ", " "] }
    else { s with word_suggestions := [" ", " ", " ", " "] }

/-- One recognition tick of the state machine: `update_text_with_character`
ends by calling `update_word_suggestions` (line 319). -/
def recognizer_step (d : Dict) (s : RecognizerState) (c : String) : RecognizerState :=
  update_word_suggestions d (update_text_with_character s c)

/-- Feeding a token sequence tick by tick. -/
def feedTokens (d : Dict) (s : RecognizerState) (ts : List String) : RecognizerState :=
  ts.foldl (recognizer_step d) s

/-- Python `str.upper()` on ASCII text: character-wise upper-casing. -/
def pyUpper (s : String) : List Char := s.data.map Char.toUpper

/-- `apply_word_suggestion` (lines 353-375), text transformation only: keep
everything up to and including the last space and append the upper-cased
suggestion; with no space the whole text is replaced. -/
def apply_word_suggestion (text : List Char) (sugg : String) : List Char :=
  let ls := rfindSpace text
  if ls ≥ 0 then text.take (ls + 1).toNat ++ pyUpper sugg
  else pyUpper sugg

/-! ## Desktop classifier (`final_complete_auth.predict`, lines 468-798)

The desktop variant first runs a 35-rule cascade rewriting the numeric class
`ch1` (lines 484-722), then the bucket-to-letter mapping and the space/"next"
overrides (lines 724-798).  In Python `ch1` starts as an `int` and may be
reassigned to a `str`; a bucket-1 hand shape matching none of the finger
patterns leaves `ch1` as the integer `1`.  The value is therefore a sum of
`Int` and `String`. -/

/-- A desktop classifier token: either a leftover numeric class or a string. -/
inductive FTok where
  | num : Int → FTok
  | str : String → FTok
deriving DecidableEq

/-- The rule cascade (lines 484-722).  Each block guards on membership of the
current `[ch1, ch2]` pair in a fixed list and rewrites `ch1`; the first two
blocks test the pair built before any rewriting (`pl` is only recomputed from
block three on, exactly as in the source). -/
def final_cascade (ch1 ch2 : Int) (P : List Pt) : Int :=
  let pl0 : Int × Int := (ch1, ch2)
  -- condition for [Aemnst] (484-487)
  let c :=
    if pl0 ∈ ([(5,2),(5,3),(3,5),(3,6),(3,0),(3,2),(6,4),(6,1),(6,2),(6,6),(6,7),(6,0),(6,5),(4,1),(1,0),(1,1),(6,3),(1,6),(5,6),(5,1),(4,5),(1,4),(1,5),(2,0),(2,6),(4,6),(1,0),(5,7),(1,6),(6,1),(7,6),(2,5),(7,1),(5,4),(7,0),(7,5),(7,2)] : List (Int × Int)) ∧
        ptY P 6 < ptY P 8 ∧ ptY P 10 < ptY P 12 ∧ ptY P 14 < ptY P 16 ∧ ptY P 18 < ptY P 20 then 0
    else ch1
  -- condition for [o][s] (490-493); still guarded by the original pair
  let c :=
    if pl0 ∈ ([(2,2),(2,1)] : List (Int × Int)) ∧ ptX P 5 < ptX P 4 then 0 else c
  -- condition for [c0][aemnst] (497-501)
  let c :=
    if (c, ch2) ∈ ([(0,0),(0,6),(0,2),(0,5),(0,1),(0,7),(5,2),(7,6),(7,1)] : List (Int × Int)) ∧
        (ptX P 0 > ptX P 8 ∧ ptX P 0 > ptX P 4 ∧ ptX P 0 > ptX P 12 ∧ ptX P 0 > ptX P 16 ∧ ptX P 0 > ptX P 20) ∧
        ptX P 5 > ptX P 4 then 2
    else c
  -- condition for [c0][aemnst] (504-508)
  let c :=
    if (c, ch2) ∈ ([(6,0),(6,6),(6,2)] : List (Int × Int)) ∧ distLT P 8 16 52 then 2 else c
  -- condition for [gh][bdfikruvw] (512-516)
  let c :=
    if (c, ch2) ∈ ([(1,4),(1,5),(1,6),(1,3),(1,0)] : List (Int × Int)) ∧
        ptY P 6 > ptY P 8 ∧ ptY P 14 < ptY P 16 ∧ ptY P 18 < ptY P 20 ∧
        ptX P 0 < ptX P 8 ∧ ptX P 0 < ptX P 12 ∧ ptX P 0 < ptX P 16 ∧ ptX P 0 < ptX P 20 then 3
    else c
  -- con for [gh][l] (519-523)
  let c :=
    if (c, ch2) ∈ ([(4,6),(4,1),(4,5),(4,3),(4,7)] : List (Int × Int)) ∧ ptX P 4 > ptX P 0 then 3 else c
  -- con for [gh][pqz] (526-530)
  let c :=
    if (c, ch2) ∈ ([(5,3),(5,0),(5,7),(5,4),(5,2),(5,1),(5,5)] : List (Int × Int)) ∧
        ptY P 2 + 15 < ptY P 16 then 3
    else c
  -- con for [l][x] (533-537)
  let c :=
    if (c, ch2) ∈ ([(6,4),(6,1),(6,2)] : List (Int × Int)) ∧ distGT P 4 11 55 then 4 else c
  -- con for [l][d] (540-544)
  let c :=
    if (c, ch2) ∈ ([(1,4),(1,6),(1,1)] : List (Int × Int)) ∧ distGT P 4 11 50 ∧
        (ptY P 6 > ptY P 8 ∧ ptY P 10 < ptY P 12 ∧ ptY P 14 < ptY P 16 ∧ ptY P 18 < ptY P 20) then 4
    else c
  -- con for [l][gh] (547-551)
  let c :=
    if (c, ch2) ∈ ([(3,6),(3,4)] : List (Int × Int)) ∧ ptX P 4 < ptX P 0 then 4 else c
  -- con for [l][c0] (554-558)
  let c :=
    if (c, ch2) ∈ ([(2,2),(2,5),(2,4)] : List (Int × Int)) ∧ ptX P 1 < ptX P 12 then 4 else c
  -- con for [gh][z] (561-565)
  let c :=
    if (c, ch2) ∈ ([(3,6),(3,5),(3,4)] : List (Int × Int)) ∧
        (ptY P 6 > ptY P 8 ∧ ptY P 10 < ptY P 12 ∧ ptY P 14 < ptY P 16 ∧ ptY P 18 < ptY P 20) ∧
        ptY P 4 > ptY P 10 then 5
    else c
  -- con for [gh][pq] (568-572)
  let c :=
    if (c, ch2) ∈ ([(3,2),(3,1),(3,6)] : List (Int × Int)) ∧
        ptY P 4 + 17 > ptY P 8 ∧ ptY P 4 + 17 > ptY P 12 ∧
        ptY P 4 + 17 > ptY P 16 ∧ ptY P 4 + 17 > ptY P 20 then 5
    else c
  -- con for [l][pqz] (575-579)
  let c :=
    if (c, ch2) ∈ ([(4,4),(4,5),(4,2),(7,5),(7,6),(7,0)] : List (Int × Int)) ∧ ptX P 4 > ptX P 0 then 5
    else c
  -- con for [pqz][aemnst] (582-586)
  let c :=
    if (c, ch2) ∈ ([(0,2),(0,6),(0,1),(0,5),(0,0),(0,7),(0,4),(0,3),(2,7)] : List (Int × Int)) ∧
        ptX P 0 < ptX P 8 ∧ ptX P 0 < ptX P 12 ∧ ptX P 0 < ptX P 16 ∧ ptX P 0 < ptX P 20 then 5
    else c
  -- con for [pqz][yj] (589-593)
  let c :=
    if (c, ch2) ∈ ([(5,7),(5,2),(5,6)] : List (Int × Int)) ∧ ptX P 3 < ptX P 0 then 7 else c
  -- con for [l][yj] (596-600)
  let c :=
    if (c, ch2) ∈ ([(4,6),(4,2),(4,4),(4,1),(4,5),(4,7)] : List (Int × Int)) ∧ ptY P 6 < ptY P 8 then 7
    else c
  -- con for [x][yj] (603-607)
  let c :=
    if (c, ch2) ∈ ([(6,7),(0,7),(0,1),(0,0),(6,4),(6,6),(6,5),(6,1)] : List (Int × Int)) ∧
        ptY P 18 > ptY P 20 then 7
    else c
  -- condition for [x][aemnst] (610-614)
  let c :=
    if (c, ch2) ∈ ([(0,4),(0,2),(0,3),(0,1),(0,6)] : List (Int × Int)) ∧ ptX P 5 > ptX P 16 then 6
    else c
  -- condition for [yj][x] (617-621)
  let c :=
    if (c, ch2) ∈ ([(7,2)] : List (Int × Int)) ∧ ptY P 18 < ptY P 20 ∧ ptY P 8 < ptY P 10 then 6
    else c
  -- condition for [c0][x] (624-628)
  let c :=
    if (c, ch2) ∈ ([(2,1),(2,2),(2,6),(2,7),(2,0)] : List (Int × Int)) ∧ distGT P 8 16 50 then 6
    else c
  -- con for [l][x] (631-635)
  let c :=
    if (c, ch2) ∈ ([(4,6),(4,2),(4,1),(4,4)] : List (Int × Int)) ∧ distLT P 4 11 60 then 6 else c
  -- con for [x][d] (638-642)
  let c :=
    if (c, ch2) ∈ ([(1,4),(1,6),(1,0),(1,2)] : List (Int × Int)) ∧ ptX P 5 - ptX P 4 - 15 > 0 then 6
    else c
  -- con for [b][pqz] (645-649)
  let c :=
    if (c, ch2) ∈ ([(5,0),(5,1),(5,4),(5,5),(5,6),(6,1),(7,6),(0,2),(7,1),(7,4),(6,6),(7,2),(5,0),(6,3),(6,4),(7,5),(7,2)] : List (Int × Int)) ∧
        (ptY P 6 > ptY P 8 ∧ ptY P 10 > ptY P 12 ∧ ptY P 14 > ptY P 16 ∧ ptY P 18 > ptY P 20) then 1
    else c
  -- con for [f][pqz] (652-656)
  let c :=
    if (c, ch2) ∈ ([(6,1),(6,0),(0,3),(6,4),(2,2),(0,6),(6,2),(7,6),(4,6),(4,1),(4,2),(0,2),(7,1),(7,4),(6,6),(7,2),(7,5),(7,2)] : List (Int × Int)) ∧
        (ptY P 6 < ptY P 8 ∧ ptY P 10 > ptY P 12 ∧ ptY P 14 > ptY P 16 ∧ ptY P 18 > ptY P 20) then 1
    else c
  -- (658-662)
  let c :=
    if (c, ch2) ∈ ([(6,1),(6,0),(4,2),(4,1),(4,6),(4,4)] : List (Int × Int)) ∧
        (ptY P 10 > ptY P 12 ∧ ptY P 14 > ptY P 16 ∧ ptY P 18 > ptY P 20) then 1
    else c
  -- con for [d][pqz] (665-669)
  let c :=
    if (c, ch2) ∈ ([(5,0),(3,4),(3,0),(3,1),(3,5),(5,5),(5,4),(5,1),(7,6)] : List (Int × Int)) ∧
        ((ptY P 6 > ptY P 8 ∧ ptY P 10 < ptY P 12 ∧ ptY P 14 < ptY P 16 ∧ ptY P 18 < ptY P 20) ∧
          ptX P 2 < ptX P 0 ∧ ptY P 4 > ptY P 14) then 1
    else c
  -- (671-675)
  let c :=
    if (c, ch2) ∈ ([(4,1),(4,2),(4,4)] : List (Int × Int)) ∧ distLT P 4 11 50 ∧
        (ptY P 6 > ptY P 8 ∧ ptY P 10 < ptY P 12 ∧ ptY P 14 < ptY P 16 ∧ ptY P 18 < ptY P 20) then 1
    else c
  -- (677-681)
  let c :=
    if (c, ch2) ∈ ([(3,4),(3,0),(3,1),(3,5),(3,6)] : List (Int × Int)) ∧
        ((ptY P 6 > ptY P 8 ∧ ptY P 10 < ptY P 12 ∧ ptY P 14 < ptY P 16 ∧ ptY P 18 < ptY P 20) ∧
          ptX P 2 < ptX P 0 ∧ ptY P 14 < ptY P 4) then 1
    else c
  -- (683-687)
  let c :=
    if (c, ch2) ∈ ([(6,6),(6,4),(6,1),(6,2)] : List (Int × Int)) ∧ ptX P 5 - ptX P 4 - 15 < 0 then 1
    else c
  -- con for [i][pqz] (690-694)
  let c :=
    if (c, ch2) ∈ ([(5,4),(5,5),(5,1),(0,3),(0,7),(5,0),(0,2),(6,2),(7,5),(7,1),(7,6),(7,7)] : List (Int × Int)) ∧
        (ptY P 6 < ptY P 8 ∧ ptY P 10 < ptY P 12 ∧ ptY P 14 < ptY P 16 ∧ ptY P 18 > ptY P 20) then 1
    else c
  -- con for [yj][bfdi] (697-701)
  let c :=
    if (c, ch2) ∈ ([(1,5),(1,7),(1,1),(1,6),(1,3),(1,0)] : List (Int × Int)) ∧
        ptX P 4 < ptX P 5 + 15 ∧
        (ptY P 6 < ptY P 8 ∧ ptY P 10 < ptY P 12 ∧ ptY P 14 < ptY P 16 ∧ ptY P 18 > ptY P 20) then 7
    else c
  -- con for [uvr] (704-708)
  let c :=
    if (c, ch2) ∈ ([(5,5),(5,0),(5,4),(5,1),(4,6),(4,1),(7,6),(3,0),(3,5)] : List (Int × Int)) ∧
        (ptY P 6 > ptY P 8 ∧ ptY P 10 > ptY P 12 ∧ ptY P 14 < ptY P 16 ∧ ptY P 18 < ptY P 20) ∧
        ptY P 4 > ptY P 14 then 1
    else c
  -- con for [w] (711-716), fg = 13
  let c :=
    if (c, ch2) ∈ ([(3,5),(3,0),(3,6),(5,1),(4,1),(2,0),(5,0),(5,5)] : List (Int × Int)) ∧
        ¬(ptX P 0 + 13 < ptX P 8 ∧ ptX P 0 + 13 < ptX P 12 ∧
          ptX P 0 + 13 < ptX P 16 ∧ ptX P 0 + 13 < ptX P 20) ∧
        ¬(ptX P 0 > ptX P 8 ∧ ptX P 0 > ptX P 12 ∧ ptX P 0 > ptX P 16 ∧ ptX P 0 > ptX P 20) ∧
        distLT P 4 11 50 then 1
    else c
  -- (718-722)
  let c :=
    if (c, ch2) ∈ ([(5,0),(5,5),(0,1)] : List (Int × Int)) ∧
        (ptY P 6 > ptY P 8 ∧ ptY P 10 > ptY P 12 ∧ ptY P 14 > ptY P 16) then 1
    else c
  c

/-- Desktop bucket 0 (lines 724-735): default `S`, then the `A/T/E/M/N`
tests applied in order as successive overriding `if` statements. -/
def final_bucket0 (P : List Pt) : String :=
  let r := "S"
  let r := if ptX P 4 < ptX P 6 ∧ ptX P 4 < ptX P 10 ∧ ptX P 4 < ptX P 14 ∧ ptX P 4 < ptX P 18 then "A" else r
  let r := if ptX P 4 > ptX P 6 ∧ ptX P 4 < ptX P 10 ∧ ptX P 4 < ptX P 14 ∧ ptX P 4 < ptX P 18 ∧
      ptY P 4 < ptY P 14 ∧ ptY P 4 < ptY P 18 then "T" else r
  let r := if ptY P 4 > ptY P 8 ∧ ptY P 4 > ptY P 12 ∧ ptY P 4 > ptY P 16 ∧ ptY P 4 > ptY P 20 then "E" else r
  let r := if ptX P 4 > ptX P 6 ∧ ptX P 4 > ptX P 10 ∧ ptX P 4 > ptX P 14 ∧ ptY P 4 < ptY P 18 then "M" else r
  let r := if ptX P 4 > ptX P 6 ∧ ptX P 4 > ptX P 10 ∧ ptY P 4 < ptY P 18 ∧ ptY P 4 < ptY P 14 then "N" else r
  r

/-- Desktop bucket 1 (lines 770-788): successive overriding `if` statements
for `B/D/F/I/W/K/U/V/R`; when none fires the value stays the integer `1`. -/
def final_bucket1 (P : List Pt) : FTok :=
  let r : FTok := FTok.num 1
  let r := if ptY P 6 > ptY P 8 ∧ ptY P 10 > ptY P 12 ∧ ptY P 14 > ptY P 16 ∧ ptY P 18 > ptY P 20 then
      FTok.str "B" else r
  let r := if ptY P 6 > ptY P 8 ∧ ptY P 10 < ptY P 12 ∧ ptY P 14 < ptY P 16 ∧ ptY P 18 < ptY P 20 then
      FTok.str "D" else r
  let r := if ptY P 6 < ptY P 8 ∧ ptY P 10 > ptY P 12 ∧ ptY P 14 > ptY P 16 ∧ ptY P 18 > ptY P 20 then
      FTok.str "F" else r
  let r := if ptY P 6 < ptY P 8 ∧ ptY P 10 < ptY P 12 ∧ ptY P 14 < ptY P 16 ∧ ptY P 18 > ptY P 20 then
      FTok.str "I" else r
  let r := if ptY P 6 > ptY P 8 ∧ ptY P 10 > ptY P 12 ∧ ptY P 14 > ptY P 16 ∧ ptY P 18 < ptY P 20 then
      FTok.str "W" else r
  let r := if (ptY P 6 > ptY P 8 ∧ ptY P 10 > ptY P 12 ∧ ptY P 14 < ptY P 16 ∧ ptY P 18 < ptY P 20) ∧
      ptY P 4 < ptY P 9 then FTok.str "K" else r
  let r := if distDiffLT P 8 12 6 10 8 ∧
      (ptY P 6 > ptY P 8 ∧ ptY P 10 > ptY P 12 ∧ ptY P 14 < ptY P 16 ∧ ptY P 18 < ptY P 20) then
      FTok.str "U" else r
  let r := if ¬distDiffLT P 8 12 6 10 8 ∧
      (ptY P 6 > ptY P 8 ∧ ptY P 10 > ptY P 12 ∧ ptY P 14 < ptY P 16 ∧ ptY P 18 < ptY P 20) ∧
      ptY P 4 > ptY P 9 then FTok.str "V" else r
  let r := if ptX P 8 > ptX P 12 ∧
      (ptY P 6 > ptY P 8 ∧ ptY P 10 > ptY P 12 ∧ ptY P 14 < ptY P 16 ∧ ptY P 18 < ptY P 20) then
      FTok.str "R" else r
  r

/-- One numeric-to-letter mapping statement `if ch1 == n: ch1 = r` of the
desktop bucket mapping: a string value (`'S' == 2` is `False` in Python)
passes through unchanged. -/
def final_map_step (t : FTok) (n : Int) (r : String) : FTok :=
  if t = FTok.num n then FTok.str r else t

/-- Bucket-to-letter mapping and overrides of the desktop classifier
(lines 724-798), applied to the cascade result.  Successive Python `if`
statements are non-exclusive and override in order, each guarded by a
comparison of the current value with a number. -/
def final_resolve (c : Int) (P : List Pt) : FTok :=
  let t : FTok := if c = 0 then FTok.str (final_bucket0 P) else FTok.num c
  let t := final_map_step t 2 (if distGT P 12 4 42 then "C" else "O")
  let t := final_map_step t 3 (if distGT P 8 12 72 then "G" else "H")
  let t := final_map_step t 7 (if distGT P 8 4 42 then "Y" else "J")
  let t := final_map_step t 4 "L"
  let t := final_map_step t 6 "X"
  let t := final_map_step t 5
    (if ptX P 4 > ptX P 12 ∧ ptX P 4 > ptX P 16 ∧ ptX P 4 > ptX P 20 then
        (if ptY P 8 < ptY P 5 then "Z" else "Q")
      else "P")
  let t := if t = FTok.num 1 then final_bucket1 P else t
  -- special gesture: space (791-793)
  let t :=
    if (t = FTok.num 1 ∨ t = FTok.str "E" ∨ t = FTok.str "S" ∨ t = FTok.str "X" ∨
        t = FTok.str "Y" ∨ t = FTok.str "B") ∧
        (ptY P 6 > ptY P 8 ∧ ptY P 10 < ptY P 12 ∧ ptY P 14 < ptY P 16 ∧ ptY P 18 > ptY P 20) then
      FTok.str " "
    else t
  -- special gesture: next (796-798)
  if (t = FTok.str "E" ∨ t = FTok.str "Y" ∨ t = FTok.str "B") ∧ ptX P 4 < ptX P 5 ∧
      (ptY P 6 > ptY P 8 ∧ ptY P 10 > ptY P 12 ∧ ptY P 14 > ptY P 16 ∧ ptY P 18 > ptY P 20) then
    FTok.str "next"
  else t

/-- The full desktop classification (lines 484-798): cascade, then mapping
and overrides. -/
def final_predict (ch1 ch2 : Int) (P : List Pt) : FTok :=
  final_resolve (final_cascade ch1 ch2 P) P

/-! ## Desktop suggestion application (`action1`, final_complete_auth.py 373-379)

`action1` runs `idx_word = str.find(word, idx_space)` with
`idx_space = str.rfind(" ")`; Python interprets a negative `find` start and a
negative slice bound relative to the end of the string, so both are modelled
with that clamping. -/

/-- Python `l.find(sub, s0)` for a nonnegative start `s0`: least `i ≥ s0`
with `sub` occurring at `i`, else `-1`. -/
def pyFindFrom (l sub : List Char) (s0 : Nat) : Int :=
  match (List.range (l.length + 1)).find? (fun i => decide (s0 ≤ i) && ((l.drop i).take sub.length == sub)) with
  | some i => (i : Int)
  | none => -1

/-- Python `l.find(sub, start)` with a possibly negative start, which counts
from the end and is clamped to `0`. -/
def pyFind (l sub : List Char) (start : Int) : Int :=
  pyFindFrom l sub (if start < 0 then ((l.length : Int) + start).toNat else start.toNat)

/-- Python `l[:j]` with a possibly negative bound, which counts from the end
and is clamped to `0`. -/
def pySliceTo (l : List Char) (j : Int) : List Char :=
  if j < 0 then l.take ((l.length : Int) + j).toNat else l.take j.toNat

/-- `action1` (lines 373-379): `str = str[:str.find(word, str.rfind(" "))] +
word1.upper()`, where `word` is the stored active word. -/
def action1 (str word : List Char) (word1 : String) : List Char :=
  let idx_space := rfindSpace str
  let idx_word := pyFind str word idx_space
  pySliceTo str idx_word ++ pyUpper word1

/-! ## Basic list lemmas for the ring buffer -/

theorem getD_set_self {α : Type} (l : List α) (i : Nat) (a d : α) (h : i < l.length) :
    (l.set i a).getD i d = a := by
  induction l generalizing i with
  | nil => simp at h
  | cons x xs ih =>
    cases i with
    | zero => rfl
    | succ n => exact ih n (by simpa using h)

theorem getD_set_of_ne {α : Type} (l : List α) (i j : Nat) (a d : α) (h : i ≠ j) :
    (l.set i a).getD j d = l.getD j d := by
  induction l generalizing i j with
  | nil => rfl
  | cons x xs ih =>
    cases i with
    | zero =>
      cases j with
      | zero => exact absurd rfl h
      | succ m => rfl
    | succ n =>
      cases j with
      | zero => rfl
      | succ m => exact ih n m (fun hh => h (by rw [hh]))

/-! ## Field behaviour of one tick -/

/-- `update_word_suggestions` never touches the accumulation fields: it only
rewrites `current_word` and `word_suggestions`. -/
theorem uws_core_fields (d : Dict) (s : RecognizerState) :
    (update_word_suggestions d s).recognized_text = s.recognized_text ∧
    (update_word_suggestions d s).prev_char = s.prev_char ∧
    (update_word_suggestions d s).count = s.count ∧
    (update_word_suggestions d s).ten_prev_char = s.ten_prev_char ∧
    (update_word_suggestions d s).current_symbol = s.current_symbol := by
  unfold update_word_suggestions
  cases d with
  | none => exact ⟨rfl, rfl, rfl, rfl, rfl⟩
  | some f =>
    dsimp only
    split
    · split
      · split <;> exact ⟨rfl, rfl, rfl, rfl, rfl⟩
      · exact ⟨rfl, rfl, rfl, rfl, rfl⟩
    · exact ⟨rfl, rfl, rfl, rfl, rfl⟩

theorem step_prev_char (d : Dict) (s : RecognizerState) (c : String) :
    (recognizer_step d s c).prev_char = c :=
  (uws_core_fields d (update_text_with_character s c)).2.1

theorem step_count (d : Dict) (s : RecognizerState) (c : String) :
    (recognizer_step d s c).count = s.count + 1 :=
  (uws_core_fields d (update_text_with_character s c)).2.2.1

theorem step_buf (d : Dict) (s : RecognizerState) (c : String) :
    (recognizer_step d s c).ten_prev_char
      = s.ten_prev_char.set ((s.count + 1) % 10).toNat c :=
  (uws_core_fields d (update_text_with_character s c)).2.2.2.1

theorem step_text_eq (d : Dict) (s : RecognizerState) (c : String) :
    (recognizer_step d s c).recognized_text
      = (update_text_with_character s c).recognized_text :=
  (uws_core_fields d (update_text_with_character s c)).1

/-- A token that is none of `Backspace`, space, `next` leaves the text alone. -/
theorem utwc_text_no_action (s : RecognizerState) (c : String)
    (h : c ∉ (["Backspace", " ", "next"] : List String)) :
    (update_text_with_character s c).recognized_text = s.recognized_text := by
  have hb : c ≠ "Backspace" := fun hc => h (by rw [hc]; decide)
  have hs : c ≠ " " := fun hc => h (by rw [hc]; decide)
  have hn : c ≠ "next" := fun hc => h (by rw [hc]; decide)
  simp only [update_text_with_character]
  rw [if_neg (fun hc => hn hc.1), if_neg (fun hc => hs hc.1), if_neg (fun hc => hb hc.1)]

/-- A repeated token (equal to the stored previous token) leaves the text
alone: all three action branches are guarded by `prev_char != token`. -/
theorem utwc_text_debounced (s : RecognizerState) (c : String) (h : s.prev_char = c) :
    (update_text_with_character s c).recognized_text = s.recognized_text := by
  simp only [update_text_with_character]
  rw [if_neg (fun hc => hc.2 (h.trans hc.1)), if_neg (fun hc => hc.2 (h.trans hc.1)),
    if_neg (fun hc => hc.2 (h.trans hc.1))]

/-- Rising edge of `next` with a non-special pending token: the pending token
read from `ten_prev_char[(count-2) % 10]` is appended to the text. -/
theorem utwc_next_appends (s : RecognizerState) (hprev : s.prev_char ≠ "next")
    (hv : s.ten_prev_char.getD ((s.count - 2) % 10).toNat " " ∉ (["Backspace", " ", "next"] : List String)) :
    (update_text_with_character s "next").recognized_text
      = s.recognized_text ++ (s.ten_prev_char.getD ((s.count - 2) % 10).toNat " ").data := by
  have hvn : s.ten_prev_char.getD ((s.count - 2) % 10).toNat " " ≠ "next" :=
    fun h => hv (by rw [h]; decide)
  have hvb : ¬s.ten_prev_char.getD ((s.count - 2) % 10).toNat " " = "Backspace" :=
    fun h => hv (by rw [h]; decide)
  simp only [update_text_with_character]
  rw [if_pos ⟨trivial, hprev⟩, if_pos hvn, if_neg hvb, if_pos hv]

/-! ## Feeding runs of tokens -/

/-- Feeding a run of one identical token starting from a state that already
stores it as `prev_char` never changes the text, and keeps `prev_char`. -/
theorem feed_same_token_fixed (d : Dict) (x : String) :
    ∀ (m : Nat) (s : RecognizerState), s.prev_char = x →
      (feedTokens d s (List.replicate m x)).recognized_text = s.recognized_text ∧
      (feedTokens d s (List.replicate m x)).prev_char = x := by
  intro m
  induction m with
  | zero => exact fun s h => ⟨rfl, h⟩
  | succ k ih =>
    intro s h
    have htext : (recognizer_step d s x).recognized_text = s.recognized_text :=
      (step_text_eq d s x).trans (utwc_text_debounced s x h)
    have hcons : feedTokens d s (List.replicate (k + 1) x)
        = feedTokens d (recognizer_step d s x) (List.replicate k x) := by
      rw [List.replicate_succ]; rfl
    obtain ⟨h1, h2⟩ := ih (recognizer_step d s x) (step_prev_char d s x)
    rw [hcons]
    exact ⟨h1.trans htext, h2⟩

/-- C2.  Debounce idempotence: for a token in `{" ", "Backspace", "next"}`,
feeding it `n ≥ 1` times in immediate succession leaves the output text equal
to the output text after feeding it once; after the first tick `prev_char`
equals the token, so every later tick of the run falls into the no-action
branch. -/
theorem debounce_idempotent (d : Dict) (s : RecognizerState) (x : String) (n : Nat)
    (_hx : x = " " ∨ x = "Backspace" ∨ x = "next") (hn : 1 ≤ n) :
    (feedTokens d s (List.replicate n x)).recognized_text
      = (recognizer_step d s x).recognized_text := by
  obtain ⟨m, rfl⟩ : ∃ m, n = m + 1 := ⟨n - 1, by omega⟩
  have hcons : feedTokens d s (List.replicate (m + 1) x)
      = feedTokens d (recognizer_step d s x) (List.replicate m x) := by
    rw [List.replicate_succ]; rfl
  rw [hcons]
  exact (feed_same_token_fixed d x m _ (step_prev_char d s x)).1

/-- C2 witness: two consecutive spaces from the initial state produce the
same text as one space. -/
theorem debounce_idempotent_witness :
    (feedTokens none reset_recognition_state (List.replicate 2 " ")).recognized_text
      = (recognizer_step none reset_recognition_state " ").recognized_text :=
  debounce_idempotent none reset_recognition_state " " 2 (Or.inl rfl) (by omega)

/-- C3.  Bookkeeping invariant: every transition, on every branch, stores the
incoming token as `prev_char`, increments `count` by one, writes the token at
ring-buffer slot `count % 10` (with the incremented `count`), and keeps the
buffer at exactly ten entries. -/
theorem bookkeeping_invariant (d : Dict) (s : RecognizerState) (c : String)
    (h : s.ten_prev_char.length = 10) :
    (recognizer_step d s c).prev_char = c ∧
    (recognizer_step d s c).count = s.count + 1 ∧
    (recognizer_step d s c).ten_prev_char.getD ((s.count + 1) % 10).toNat " " = c ∧
    (recognizer_step d s c).ten_prev_char.length = 10 := by
  refine ⟨step_prev_char d s c, step_count d s c, ?_, ?_⟩
  · rw [step_buf]
    exact getD_set_self _ _ _ _ (by rw [h]; omega)
  · rw [step_buf, List.length_set, h]

/-- C3 witness: instantiated at the initial state and the token `"A"`. -/
theorem bookkeeping_invariant_witness :
    (recognizer_step none reset_recognition_state "A").prev_char = "A" ∧
    (recognizer_step none reset_recognition_state "A").count = reset_recognition_state.count + 1 ∧
    (recognizer_step none reset_recognition_state "A").ten_prev_char.getD
      ((reset_recognition_state.count + 1) % 10).toNat " " = "A" ∧
    (recognizer_step none reset_recognition_state "A").ten_prev_char.length = 10 :=
  bookkeeping_invariant none reset_recognition_state "A" (by decide)

/-! ## Reachability and ring-buffer safety -/

/-- States reachable from the reset state by recognition ticks. -/
inductive ReachableState : RecognizerState → Prop where
  | init : ReachableState reset_recognition_state
  | tick (d : Dict) (s : RecognizerState) (c : String) :
      ReachableState s → ReachableState (recognizer_step d s c)

theorem reachable_buf_len {s : RecognizerState} (h : ReachableState s) :
    s.ten_prev_char.length = 10 := by
  induction h with
  | init => rfl
  | tick d s c _ ih => rw [step_buf, List.length_set]; exact ih

/-- C10.  Ring-buffer access safety: from any reachable state the buffer has
exactly ten entries, every index the transition reads or writes —
`(count-2) % 10`, `count % 10` and the write index `(count+1) % 10` — lies in
`0..9` (also during the initial ticks where `count - 2` is negative, since
Python and `Int.emod` both return nonnegative remainders for the positive
modulus), and the transition keeps the buffer at ten entries. -/
theorem ring_buffer_safety (s : RecognizerState) (h : ReachableState s)
    (d : Dict) (c : String) :
    s.ten_prev_char.length = 10 ∧
    0 ≤ (s.count - 2) % 10 ∧ ((s.count - 2) % 10).toNat < 10 ∧
    0 ≤ s.count % 10 ∧ (s.count % 10).toNat < 10 ∧
    0 ≤ (s.count + 1) % 10 ∧ ((s.count + 1) % 10).toNat < 10 ∧
    (recognizer_step d s c).ten_prev_char.length = 10 := by
  refine ⟨reachable_buf_len h, by omega, by omega, by omega, by omega, by omega, by omega, ?_⟩
  rw [step_buf, List.length_set]
  exact reachable_buf_len h

/-- C10 witness: instantiated at the initial state (`count = -1`, so the read
index is `(-3) % 10 = 7`). -/
theorem ring_buffer_safety_witness :
    reset_recognition_state.ten_prev_char.length = 10 ∧
    0 ≤ (reset_recognition_state.count - 2) % 10 ∧
    ((reset_recognition_state.count - 2) % 10).toNat < 10 ∧
    0 ≤ reset_recognition_state.count % 10 ∧
    (reset_recognition_state.count % 10).toNat < 10 ∧
    0 ≤ (reset_recognition_state.count + 1) % 10 ∧
    ((reset_recognition_state.count + 1) % 10).toNat < 10 ∧
    (recognizer_step none reset_recognition_state "A").ten_prev_char.length = 10 :=
  ring_buffer_safety reset_recognition_state ReachableState.init none "A"

/-! ## The lookback of the `next` confirmation -/

/-- C1 counterexample: feed `"C", "A", "B", "next"` from the reset state.  At
the `"next"` tick the stored previous token is `"B"` (not `"next"`), the
token fed two ticks before the current tick is the letter `"A"`, and the
pending token read through `ten_prev_char[(count-2) % 10]` is `"C"`, which is
not `"next"` — all hypotheses of the claim hold — yet the text becomes
`"C"`, the token fed *three* ticks before the current tick, not `"A"`:
when the branch runs, `count` still holds the index of the previous tick,
so `(count-2) % 10` addresses the slot written three ticks earlier. -/
theorem two_tick_lookback_cex :
    (feedTokens none reset_recognition_state ["C", "A", "B"]).prev_char = "B" ∧
    (feedTokens none reset_recognition_state ["C", "A", "B"]).ten_prev_char.getD
      (((feedTokens none reset_recognition_state ["C", "A", "B"]).count - 2) % 10).toNat " "
      = "C" ∧
    (feedTokens none reset_recognition_state ["C", "A", "B", "next"]).recognized_text
      = "C".data ∧
    "C".data ≠ "A".data := by
  decide

/-- C1 (amended).  Three-tick lookback: if three tokens `w, x, y`, none of
them `"Backspace"`, `" "` or `"next"`, are fed at ticks `t-3, t-2, t-1` and
`"next"` arrives at tick `t`, the transition at tick `t` appends `w` — the
token fed three ticks before the current tick, which is what
`ten_prev_char[(count-2) % 10]` holds, since `count` is still the previous
tick's index when the branch runs. -/
theorem next_confirms_third_prev_token (d : Dict) (s : RecognizerState) (w x y : String)
    (hlen : s.ten_prev_char.length = 10)
    (hw : w ∉ (["Backspace", " ", "next"] : List String))
    (hx : x ∉ (["Backspace", " ", "next"] : List String))
    (hy : y ∉ (["Backspace", " ", "next"] : List String)) :
    (feedTokens d s [w, x, y, "next"]).recognized_text
      = s.recognized_text ++ w.data := by
  have hyn : y ≠ "next" := fun h => hy (by rw [h]; decide)
  set s1 := recognizer_step d s w with hs1
  set s2 := recognizer_step d s1 x with hs2
  set s3 := recognizer_step d s2 y with hs3
  have hrun : feedTokens d s [w, x, y, "next"] = recognizer_step d s3 "next" := rfl
  -- counters
  have hc1 : s1.count = s.count + 1 := step_count d s w
  have hc2 : s2.count = s.count + 2 := by rw [hs2, step_count, hc1]; ring
  have hc3 : s3.count = s.count + 3 := by rw [hs3, step_count, hc2]; ring
  -- texts are untouched by the three letter ticks
  have ht1 : s1.recognized_text = s.recognized_text :=
    (step_text_eq d s w).trans (utwc_text_no_action s w hw)
  have ht2 : s2.recognized_text = s.recognized_text :=
    ((step_text_eq d s1 x).trans (utwc_text_no_action s1 x hx)).trans ht1
  have ht3 : s3.recognized_text = s.recognized_text :=
    ((step_text_eq d s2 y).trans (utwc_text_no_action s2 y hy)).trans ht2
  -- the ring buffer after the three ticks
  have hb1 : s1.ten_prev_char = s.ten_prev_char.set ((s.count + 1) % 10).toNat w :=
    step_buf d s w
  have hb2 : s2.ten_prev_char = s1.ten_prev_char.set ((s.count + 2) % 10).toNat x := by
    rw [hs2, step_buf, hc1]; ring_nf
  have hb3 : s3.ten_prev_char = s2.ten_prev_char.set ((s.count + 3) % 10).toNat y := by
    rw [hs3, step_buf, hc2]; ring_nf
  -- the slot read at the `next` tick holds `w`
  have hslot : s3.ten_prev_char.getD ((s3.count - 2) % 10).toNat " " = w := by
    have hidx : ((s3.count - 2) % 10).toNat = ((s.count + 1) % 10).toNat := by
      rw [hc3]; ring_nf
    rw [hidx, hb3, hb2, hb1]
    rw [getD_set_of_ne _ _ _ _ _ (by omega), getD_set_of_ne _ _ _ _ _ (by omega)]
    exact getD_set_self _ _ _ _ (by rw [hlen]; omega)
  have hprev3 : s3.prev_char = y := step_prev_char d s2 y
  rw [hrun, step_text_eq]
  rw [utwc_next_appends s3 (by rw [hprev3]; exact hyn) (by rw [hslot]; exact hw), hslot, ht3]

/-- C1 (amended) witness: from the reset state, feeding
`"C", "A", "B", "next"` appends `"C"`. -/
theorem next_confirms_third_prev_token_witness :
    (feedTokens none reset_recognition_state ["C", "A", "B", "next"]).recognized_text
      = reset_recognition_state.recognized_text ++ "C".data :=
  next_confirms_third_prev_token none reset_recognition_state "C" "A" "B"
    (by decide) (by decide) (by decide) (by decide)

/-! ## Classifier purity -/

/-- Invoking the webapp classifier on a recognizer state: the method body of
`_apply_gesture_rules` contains no read of and no assignment to any mutable
field of `self` (it only calls the pure helper `distance`), so its
state-passing translation returns the state unchanged and a value that does
not depend on the state. -/
def predict_on_state (s : RecognizerState) (ch1 ch2 : Int) (P : List Pt) :
    String × RecognizerState :=
  (apply_gesture_rules ch1 ch2 P, s)

/-- C4.  Classifier determinism and statelessness: two invocations on any two
recognizer states return the same token for the same arguments, and the
invocation leaves the state exactly as it was. -/
theorem classifier_deterministic_stateless (s t : RecognizerState) (ch1 ch2 : Int)
    (P : List Pt) :
    (predict_on_state s ch1 ch2 P).1 = (predict_on_state t ch1 ch2 P).1 ∧
    (predict_on_state s ch1 ch2 P).2 = s :=
  ⟨rfl, rfl⟩

/-! ## Webapp classifier range -/

/-- The letters the webapp bucket mapping can produce. -/
def webappLetters : List String :=
  ["A", "E", "M", "N", "S", "C", "O", "G", "H", "L", "Z", "Q", "P", "X", "Y", "J",
   "B", "D", "F", "I", "W", "U", "V", "R", "K"]

/-- For a coarse class in `0..7` the webapp bucket mapping always yields a
letter (the numeric fallback is only reachable for classes outside `0..7`). -/
theorem resolve_letter_mem (ch1 ch2 : Int) (P : List Pt) (h0 : 0 ≤ ch1) (h7 : ch1 ≤ 7) :
    resolve_letter ch1 ch2 P ∈ webappLetters := by
  have h : ch1 = 0 ∨ ch1 = 1 ∨ ch1 = 2 ∨ ch1 = 3 ∨ ch1 = 4 ∨ ch1 = 5 ∨ ch1 = 6 ∨ ch1 = 7 := by
    omega
  rcases h with h | h | h | h | h | h | h | h <;> subst h <;>
    simp only [resolve_letter] <;> norm_num <;> first | decide | (split_ifs <;> decide)

/-- For a coarse class in `0..7` the webapp classifier output is a letter,
the space token or the `"next"` token. -/
theorem apply_gesture_rules_mem (ch1 ch2 : Int) (P : List Pt) (h0 : 0 ≤ ch1) (h7 : ch1 ≤ 7) :
    apply_gesture_rules ch1 ch2 P ∈ (webappLetters ++ [" ", "next"] : List String) := by
  have hr := resolve_letter_mem ch1 ch2 P h0 h7
  simp only [apply_gesture_rules]
  repeat' split
  all_goals first
    | decide
    | exact List.mem_append.mpr (Or.inl hr)

/-! ## Bucket-1 fallthrough in the desktop classifier -/

/-- A 21-point landmark list whose finger pattern (index curled, middle
extended, ring and pinky curled, in the tip-above-knuckle sense) matches none
of the desktop bucket-1 conditions; the thumb/index geometry keeps every
cascade rule for the pair `(1, 2)` from firing. -/
def bucket1_cex_pts : List Pt :=
  [(50, 400), (60, 380), (70, 350), (80, 330), (200, 300), (210, 100), (100, 100),
   (100, 120), (100, 150), (120, 100), (100, 200), (110, 190), (120, 150), (140, 100),
   (100, 100), (110, 120), (100, 150), (150, 100), (100, 100), (110, 120), (100, 150)]

/-- C5 counterexample: for the coarse pair `(1, 2)` (with `ch1 = 1` in
`0..7`) and the 21 landmarks above, the desktop classifier settles on bucket
1 but resolves to the integer `1`, not to any of the letters
`B/D/F/I/W/K/U/V/R` and not to the space or `"next"` overrides: the
numeric fallthrough of bucket 1 is reachable. -/
theorem bucket_fallthrough_cex :
    bucket1_cex_pts.length = 21 ∧
    final_cascade 1 2 bucket1_cex_pts = 1 ∧
    final_predict 1 2 bucket1_cex_pts = FTok.num 1 ∧
    final_predict 1 2 bucket1_cex_pts ∉
      ([FTok.str "B", FTok.str "D", FTok.str "F", FTok.str "I", FTok.str "W", FTok.str "K",
        FTok.str "U", FTok.str "V", FTok.str "R", FTok.str " ", FTok.str "next"] : List FTok) := by
  set_option maxRecDepth 10000 in decide

/-- The nine letters the claim allows for bucket 1. -/
def bucket1Letters : List String := ["B", "D", "F", "I", "W", "K", "U", "V", "R"]

/-- C5 (amended).  In the webapp classifier the claim holds: for every coarse
class `ch1` in `0..7` and any landmarks the output is a letter or the
space/"next" override, and on bucket 1 the pre-override letter is one of
`B/D/F/I/W/K/U/V/R`.  (In the desktop variant bucket 1 can fall through to
the numeric value `1`, see the counterexample.) -/
theorem webapp_classifier_total_letters (ch1 ch2 : Int) (P : List Pt)
    (h0 : 0 ≤ ch1) (h7 : ch1 ≤ 7) :
    apply_gesture_rules ch1 ch2 P ∈ (webappLetters ++ [" ", "next"] : List String) ∧
    (ch1 = 1 → resolve_letter ch1 ch2 P ∈ bucket1Letters) := by
  refine ⟨apply_gesture_rules_mem ch1 ch2 P h0 h7, fun h1 => ?_⟩
  subst h1
  simp only [resolve_letter]
  norm_num
  split_ifs <;> decide

/-- C5 (amended) witness: instantiated at `ch1 = 1`, `ch2 = 0` and an empty
landmark list (all coordinate reads default to `(0, 0)`). -/
theorem webapp_classifier_total_letters_witness :
    apply_gesture_rules 1 0 [] ∈ (webappLetters ++ [" ", "next"] : List String) ∧
    ((1 : Int) = 1 → resolve_letter 1 0 [] ∈ bucket1Letters) :=
  webapp_classifier_total_letters 1 0 [] (by norm_num) (by norm_num)

/-! ## The `next` override -/

/-- C6.  The "next" override: for a coarse class in `0..7` and any landmark
list, the webapp classifier returns `"next"` exactly when the resolved letter
is one of `E`, `Y`, `B`, the thumb tip x-coordinate is less than the
index-knuckle x-coordinate (`pts[4][0] < pts[5][0]`), and all four finger
conditions `pts[6][1] > pts[8][1]`, `pts[10][1] > pts[12][1]`,
`pts[14][1] > pts[16][1]`, `pts[18][1] > pts[20][1]` hold. -/
theorem next_override_iff (ch1 ch2 : Int) (P : List Pt) (h0 : 0 ≤ ch1) (h7 : ch1 ≤ 7) :
    apply_gesture_rules ch1 ch2 P = "next" ↔
      ((resolve_letter ch1 ch2 P = "E" ∨ resolve_letter ch1 ch2 P = "Y" ∨
        resolve_letter ch1 ch2 P = "B") ∧
        ptX P 4 < ptX P 5 ∧ ptY P 6 > ptY P 8 ∧ ptY P 10 > ptY P 12 ∧
        ptY P 14 > ptY P 16 ∧ ptY P 18 > ptY P 20) := by
  have hr := resolve_letter_mem ch1 ch2 P h0 h7
  have hrn : resolve_letter ch1 ch2 P ≠ "next" := by
    intro h; rw [h] at hr; revert hr; decide
  simp only [apply_gesture_rules]
  by_cases hc : (resolve_letter ch1 ch2 P = "E" ∨ resolve_letter ch1 ch2 P = "Y" ∨
      resolve_letter ch1 ch2 P = "B") ∧
      ptX P 4 < ptX P 5 ∧ ptY P 6 > ptY P 8 ∧ ptY P 10 > ptY P 12 ∧
      ptY P 14 > ptY P 16 ∧ ptY P 18 > ptY P 20
  · rw [if_pos hc,
      if_neg (fun hcc => by rcases hcc.1 with h | h <;> exact absurd h (by decide))]
    exact iff_of_true rfl hc
  · rw [if_neg hc]
    refine iff_of_false (fun h => ?_) hc
    split at h
    · exact absurd h (by decide)
    · exact hrn h

/-- C6 witness: instantiated at `ch1 = 0`, `ch2 = 0` and the empty landmark
list, where every coordinate reads as `0`, the override condition fails, and
both sides of the equivalence are false. -/
theorem next_override_iff_witness :
    apply_gesture_rules 0 0 [] = "next" ↔
      ((resolve_letter 0 0 [] = "E" ∨ resolve_letter 0 0 [] = "Y" ∨
        resolve_letter 0 0 [] = "B") ∧
        ptX [] 4 < ptX [] 5 ∧ ptY [] 6 > ptY [] 8 ∧ ptY [] 10 > ptY [] 12 ∧
        ptY [] 14 > ptY [] 16 ∧ ptY [] 18 > ptY [] 20) :=
  next_override_iff 0 0 [] (by norm_num) (by norm_num)

/-! ## No `Backspace` token from the classifiers -/

/-- An `if` whose branches both differ from `x` differs from `x`. -/
theorem ite_ne_tok (p : Prop) [Decidable p] {a b x : FTok} (ha : a ≠ x) (hb : b ≠ x) :
    (if p then a else b) ≠ x := by
  split
  · exact ha
  · exact hb

theorem final_map_step_ne (t : FTok) (n : Int) (r : String) (hr : r ≠ "Backspace")
    (ht : t ≠ FTok.str "Backspace") : final_map_step t n r ≠ FTok.str "Backspace" := by
  unfold final_map_step
  split
  · simp [hr]
  · exact ht

theorem final_bucket0_ne_backspace (P : List Pt) : final_bucket0 P ≠ "Backspace" := by
  simp only [final_bucket0]
  repeat' split
  all_goals decide

theorem final_bucket1_ne_backspace (P : List Pt) : final_bucket1 P ≠ FTok.str "Backspace" := by
  simp only [final_bucket1]
  repeat' split
  all_goals simp

/-- The desktop bucket mapping and overrides never produce the string
`"Backspace"`, whatever integer the cascade settled on. -/
theorem final_resolve_ne_backspace (c : Int) (P : List Pt) :
    final_resolve c P ≠ FTok.str "Backspace" := by
  have hbase : (if c = 0 then FTok.str (final_bucket0 P) else FTok.num c)
      ≠ FTok.str "Backspace" := by
    split
    · simp [final_bucket0_ne_backspace P]
    · simp
  have h2 := final_map_step_ne _ 2 (if distGT P 12 4 42 then "C" else "O")
    (by split <;> decide) hbase
  have h3 := final_map_step_ne _ 3 (if distGT P 8 12 72 then "G" else "H")
    (by split <;> decide) h2
  have h7 := final_map_step_ne _ 7 (if distGT P 8 4 42 then "Y" else "J")
    (by split <;> decide) h3
  have h4 := final_map_step_ne _ 4 "L" (by decide) h7
  have h6 := final_map_step_ne _ 6 "X" (by decide) h4
  have h5 := final_map_step_ne _ 5
    (if ptX P 4 > ptX P 12 ∧ ptX P 4 > ptX P 16 ∧ ptX P 4 > ptX P 20 then
        (if ptY P 8 < ptY P 5 then "Z" else "Q")
      else "P") (by split_ifs <;> decide) h6
  simp only [final_resolve]
  exact ite_ne_tok _ (by decide)
    (ite_ne_tok _ (by decide) (ite_ne_tok _ (final_bucket1_ne_backspace P) h5))

/-- C9.  Neither classifier ever returns the token `"Backspace"`: in the
webapp variant every output for a coarse class in `0..7` is a letter, the
space or `"next"`; in the desktop variant no branch of the cascade, the
bucket mapping or the post-processing assigns it, whatever the inputs.
Consequently the state machine's backspace branches cannot be triggered by a
classifier-produced token stream. -/
theorem classifier_never_backspace :
    (∀ (ch1 ch2 : Int) (P : List Pt), 0 ≤ ch1 → ch1 ≤ 7 →
      apply_gesture_rules ch1 ch2 P ≠ "Backspace") ∧
    (∀ (ch1 ch2 : Int) (P : List Pt), final_predict ch1 ch2 P ≠ FTok.str "Backspace") := by
  constructor
  · intro ch1 ch2 P h0 h7 h
    have hm := apply_gesture_rules_mem ch1 ch2 P h0 h7
    rw [h] at hm
    revert hm
    decide
  · intro ch1 ch2 P
    exact final_resolve_ne_backspace (final_cascade ch1 ch2 P) P

/-- C9 witness: instantiated at the coarse pair `(0, 0)` and the empty
landmark list. -/
theorem classifier_never_backspace_witness :
    apply_gesture_rules 0 0 [] ≠ "Backspace" :=
  classifier_never_backspace.1 0 0 [] (by norm_num) (by norm_num)

/-! ## Suggestion application -/

/-- C7.  Evaluation at the spec's example and at the failing input of the
desktop variant.  The webapp `apply_word_suggestion` replaces exactly the
active word: `"HELLO WOR"` with suggestion `"world"` becomes
`"HELLO WORLD"`, and with no space the whole text is replaced.  The desktop
`action1` agrees when the text contains a space, but on a space-free text
(`"WOR"`, active word `"WOR"`, suggestion `"word"`) Python evaluates
`"WOR".find("WOR", -1)` with the start clamped to index 2, finds nothing,
returns `-1`, and `str[:-1]` then truncates one character: the result is
`"WOWORD"`, not the `"WORD"` the claim describes. -/
theorem apply_suggestion_eval :
    apply_word_suggestion "HELLO WOR".data "world" = "HELLO WORLD".data ∧
    apply_word_suggestion "WOR".data "word" = "WORD".data ∧
    action1 "HELLO WOR".data "WOR".data "world" = "HELLO WORLD".data ∧
    action1 "WOR".data "WOR".data "word" = "WOWORD".data ∧
    "WOWORD".data ≠ "WORD".data := by
  decide

/-- The webapp `apply_word_suggestion` satisfies the claimed contract in
general: every character at or before the last space is unchanged and the
suffix after the last space becomes the upper-cased suggestion; with no
space the whole text is replaced. -/
theorem apply_word_suggestion_spec (text : List Char) (sugg : String) :
    apply_word_suggestion text sugg
      = text.take (rfindSpace text + 1).toNat ++ pyUpper sugg := by
  simp only [apply_word_suggestion]
  split
  · rfl
  · rename_i h
    have : rfindSpace text + 1 ≤ 0 := by omega
    rw [Int.toNat_of_nonpos this, List.take_zero, List.nil_append]

/-! ## Suggestion degradation

The webapp adapter (`update_word_suggestions`, lines 321-351) guards the
dictionary call with `try/except` and degrades to blanks.  The desktop
variant — the suggestion block at the end of `predict`
(final_complete_auth.py, lines 839-866) — has no exception handling at all:
`ddd.check`/`ddd.suggest` run bare, so a raising lookup escapes `predict`
into the caller, and an all-whitespace sentence only prints, leaving the
previous `word1..word4` in place. -/

/-- The desktop suggestion fields: the stored active word and the four
suggestion slots `word1..word4` of the GUI class. -/
structure FinalSuggestState where
  word : List Char
  word1 : String
  word2 : String
  word3 : String
  word4 : String
deriving DecidableEq

/-- Desktop suggestion update (`predict`, lines 839-866), given the current
sentence `str` and the previous suggestion fields.  The dictionary function
returns `none` when `ddd.suggest` raises; since the block has no
`try/except`, that exception escapes `predict` uncaught, modelled by the
result `none`.  A nonempty sentence stores the active word; a blank active
word blanks all four slots; a successful lookup fills only the slots below
the suggestion count, each remaining slot keeping its previous value; a
blank sentence leaves every field as it was (the source only prints). -/
def final_word_suggestions (f : List Char → Option (List String)) (str : List Char)
    (s : FinalSuggestState) : Option FinalSuggestState :=
  if (pyStrip str).length ≠ 0 then
    let word := activeWordOf str
    if (pyStrip word).length ≠ 0 then
      match f word with
      | none => none
      | some suggs =>
        let lenn := suggs.length
        some { word := word
               word1 := if lenn ≥ 1 then suggs.getD 0 " " else s.word1
               word2 := if lenn ≥ 2 then suggs.getD 1 " " else s.word2
               word3 := if lenn ≥ 3 then suggs.getD 2 " " else s.word3
               word4 := if lenn ≥ 4 then suggs.getD 3 " " else s.word4 }
    else some { word := word, word1 := " ", word2 := " ", word3 := " ", word4 := " " }
  else some s

/-- A desktop suggestion state with leftover suggestions from an earlier
tick, used to exhibit staleness. -/
def staleSuggestState : FinalSuggestState :=
  { word := "OLD".data, word1 := "STALE1", word2 := "STALE2"
    word3 := "STALE3", word4 := "STALE4" }

/-- C8 counterexample, on the desktop variant the claim also cites: with the
sentence `"WOR"` and a raising lookup, the exception propagates out of the
suggestion layer (result `none`) and no blank placeholders are produced; and
with a blank sentence the update returns the previous fields unchanged, so
the stale suggestion `"STALE1"` survives instead of a blank placeholder. -/
theorem desktop_suggestion_cex :
    final_word_suggestions (fun _ => none) "WOR".data staleSuggestState = none ∧
    final_word_suggestions (fun _ => some ["word"]) [] staleSuggestState
      = some staleSuggestState ∧
    staleSuggestState.word1 ≠ " " := by
  decide

/-- C8 (amended).  The claim holds for the webapp adapter: the suggestion
update never touches the state machine's output text, counter, previous
token or ring buffer, and whenever the dictionary is unavailable, the active
word is empty or whitespace, or the lookup raises (modelled by the
dictionary function returning `none`), the suggestion list degrades to
exactly four blank placeholders.  The desktop variant has no handler: a
blank sentence returns every field unchanged (stale suggestions survive),
only a blank active word after a nonblank sentence blanks the four slots,
and a raising lookup on a nonblank word propagates out of the suggestion
layer (result `none`) instead of degrading. -/
theorem suggestion_degradation (d : Dict) (s : RecognizerState) :
    (((update_word_suggestions d s).recognized_text = s.recognized_text ∧
      (update_word_suggestions d s).prev_char = s.prev_char ∧
      (update_word_suggestions d s).count = s.count ∧
      (update_word_suggestions d s).ten_prev_char = s.ten_prev_char) ∧
     ((d = none ∨ pyStrip (activeWordOf s.recognized_text) = [] ∨
         (∀ f, d = some f → f (activeWordOf s.recognized_text) = none)) →
       (update_word_suggestions d s).word_suggestions = [" ", " ", " ", " "])) ∧
    (∀ (f : List Char → Option (List String)) (str : List Char) (fs : FinalSuggestState),
      ((pyStrip str).length = 0 → final_word_suggestions f str fs = some fs) ∧
      ((pyStrip str).length ≠ 0 → (pyStrip (activeWordOf str)).length = 0 →
        final_word_suggestions f str fs
          = some (FinalSuggestState.mk (activeWordOf str) " " " " " " " ")) ∧
      ((pyStrip str).length ≠ 0 → (pyStrip (activeWordOf str)).length ≠ 0 →
        f (activeWordOf str) = none → final_word_suggestions f str fs = none)) := by
  constructor
  · refine ⟨⟨(uws_core_fields d s).1, (uws_core_fields d s).2.1, (uws_core_fields d s).2.2.1,
      (uws_core_fields d s).2.2.2.1⟩, ?_⟩
    intro h
    cases d with
    | none => rfl
    | some f =>
      have hcase : pyStrip (activeWordOf s.recognized_text) = [] ∨
          f (activeWordOf s.recognized_text) = none := by
        rcases h with h | h | h
        · exact absurd h (by simp)
        · exact Or.inl h
        · exact Or.inr (h f rfl)
      simp only [update_word_suggestions]
      split
      · rcases hcase with hc | hc
        · rw [if_neg (by simp [hc])]
        · by_cases hw : (pyStrip (activeWordOf s.recognized_text)).length ≠ 0
          · rw [if_pos hw, hc]
          · rw [if_neg hw]
      · rfl
  · intro f str fs
    refine ⟨fun h0 => ?_, fun h1 h2 => ?_, fun h1 h2 h3 => ?_⟩
    · simp only [final_word_suggestions]
      rw [if_neg (fun hc => hc h0)]
    · simp only [final_word_suggestions]
      rw [if_pos h1, if_neg (fun hc => hc h2)]
    · simp only [final_word_suggestions]
      rw [if_pos h1, if_pos h2, h3]

/-- C8 (amended) witness: the webapp update degrades to four blanks at the
reset state with no dictionary, and the desktop update propagates a raising
lookup on the sentence `"WOR"`. -/
theorem suggestion_degradation_witness :
    (update_word_suggestions none reset_recognition_state).word_suggestions
      = [" ", " ", " ", " "] ∧
    final_word_suggestions (fun _ => none) "WOR".data staleSuggestState = none :=
  ⟨(suggestion_degradation none reset_recognition_state).1.2 (Or.inl rfl),
   ((suggestion_degradation none reset_recognition_state).2 (fun _ => none) "WOR".data
      staleSuggestState).2.2 (by decide) (by decide) rfl⟩
